import Mathlib

/-!
Verification of the settings-management facade `ProtonVPNUserSetting`
(`src/protonvpn_nm_lib/lib/user_settings.py`) against its specification.

The facade itself is embedded directly from the Python source.  The enum
module, the constants module and the collaborator objects
(`user_conf_manager`, `user_manager`, `ks_manager`) are not part of the
source tree, so they are modelled from the spec's data model (§3) and
collaborator contracts (§6); each such definition says so in its doc
comment.  Exceptions are embedded as `Except String` results carrying the
exact message string the Python `raise Exception(...)` builds, and
collaborator writes are recorded in an explicit call log so that "no
persistence call occurs" is directly observable.
-/

set_option autoImplicit false

namespace ProtonVPN

/-- Modelled from the spec: the closed protocol enumeration (§3: protocols
tagged with implementation family: OpenVPN-UDP, OpenVPN-TCP, WireGuard).
`enums.py` is not under `src/`. -/
inductive ProtocolEnum where
  | TCP
  | UDP
  | WIREGUARD
  deriving DecidableEq, Repr

/-- Modelled from the spec: the Python `.value` of each protocol member,
fixed by the display contract (§6: transport upper-cased gives "UDP"/"TCP",
otherwise the protocol's own uppercase name gives "WIREGUARD"). -/
def ProtocolEnum.value : ProtocolEnum → String
  | .TCP => "tcp"
  | .UDP => "udp"
  | .WIREGUARD => "wireguard"

/-- Modelled from the spec: implementation families of protocols (§3). -/
inductive ProtocolImplementationEnum where
  | OPENVPN
  | WIREGUARD
  deriving DecidableEq, Repr

/-- Modelled from the spec: `SUPPORTED_PROTOCOLS` from the constants module
(not under `src/`), grouping protocols by implementation family. -/
def SUPPORTED_PROTOCOLS : ProtocolImplementationEnum → List ProtocolEnum
  | .OPENVPN => [ProtocolEnum.TCP, ProtocolEnum.UDP]
  | .WIREGUARD => [ProtocolEnum.WIREGUARD]

/-- Modelled from the spec: kill switch modes (§3: Off / On / On-permanent;
exact variant set owned by the collaborator). -/
inductive KillswitchStatusEnum where
  | OFF
  | ON
  | ON_PERMANENT
  deriving DecidableEq, Repr

/-- Modelled from the spec: `KILLSWITCH_STATUS_TEXT`, the fixed mapping of
kill switch mode to literal display text (§4.2; the exact strings are a
collaborator contract owned by the constants module, not under `src/`;
no claim depends on these literals). -/
def KILLSWITCH_STATUS_TEXT : KillswitchStatusEnum → String
  | .OFF => "Disabled"
  | .ON => "Enabled"
  | .ON_PERMANENT => "Permanent"

/-- Modelled from the spec: the DNS mode enumeration (§3: dnsMode =
Automatic | Custom; `UserSettingStatusEnum.ENABLED` is the Automatic mode,
see §4.2 where ENABLED renders as "Automatic"). -/
inductive UserSettingStatusEnum where
  | ENABLED
  | CUSTOM
  deriving DecidableEq, Repr

/-- Modelled from the spec: NetShield levels (§3: Disabled | BlockMalware |
BlockAdsAndMalware, named as in the source's `NetshieldTranslationEnum`
usages: MALWARE, ADS_MALWARE, DISABLED). -/
inductive NetshieldTranslationEnum where
  | MALWARE
  | ADS_MALWARE
  | DISABLED
  deriving DecidableEq, Repr

/-- Modelled from the spec: Python truthiness of a NetShield level, as
tested by `not netshield_enum` in `_set_netshield`.  The spec (§4.3) calls
the disable value "the \"disable\" sentinel" of a `NetshieldLevel | null`
argument, i.e. the one falsy value; non-disable levels are truthy. -/
def NetshieldTranslationEnum.toBool : NetshieldTranslationEnum → Bool
  | .DISABLED => false
  | _ => true

/-- Modelled from the spec: account tiers (§3: ordinal value, e.g. Free,
Plus, ...; `ServerTierEnum` is not under `src/`). -/
inductive ServerTierEnum where
  | FREE
  | BASIC
  | PLUS
  deriving DecidableEq, Repr

/-- Modelled from the spec: the keys of the settings dictionaries returned
by `_get_user_settings` (`DisplayUserSettingsEnum` is not under `src/`). -/
inductive DisplayUserSettingsEnum where
  | PROTOCOL
  | KILLSWITCH
  | DNS
  | CUSTOM_DNS
  | NETSHIELD
  deriving DecidableEq, Repr

/-- A value stored under a key of a settings dictionary: raw enum values
for the raw aggregate, strings for the readable projection. -/
inductive SettingValue where
  | protocol (p : ProtocolEnum)
  | killswitch (k : KillswitchStatusEnum)
  | dnsStatus (d : UserSettingStatusEnum)
  | customDns (l : List String)
  | netshield (n : NetshieldTranslationEnum)
  | str (s : String)
  deriving DecidableEq, Repr

/-- A recorded call to one of ConfigStore's update operations (§6 contract
`update(field, value)`); the log makes "no persistence call occurs"
directly observable. -/
inductive ConfigUpdate where
  | updateNetshield (v : NetshieldTranslationEnum)
  | updateKillswitch (v : KillswitchStatusEnum)
  | updateDefaultProtocol (v : ProtocolEnum)
  | updateDns (s : UserSettingStatusEnum) (ips : List String)
  deriving DecidableEq, Repr

/-- Modelled from the spec: the ConfigStore collaborator (§6), i.e. the
`user_conf_manager` object: persisted fields plus a log of update calls. -/
structure ConfigStore where
  netshield : NetshieldTranslationEnum
  killswitch : KillswitchStatusEnum
  default_protocol : ProtocolEnum
  dns_status : UserSettingStatusEnum
  custom_dns : List String
  calls : List ConfigUpdate
  deriving DecidableEq, Repr

/-- Modelled from the spec: `ConfigStore.update` for the netshield field. -/
def ConfigStore.update_netshield (s : ConfigStore) (v : NetshieldTranslationEnum) : ConfigStore :=
  { s with netshield := v, calls := s.calls ++ [ConfigUpdate.updateNetshield v] }

/-- Modelled from the spec: `ConfigStore.update` for the killswitch field. -/
def ConfigStore.update_killswitch (s : ConfigStore) (v : KillswitchStatusEnum) : ConfigStore :=
  { s with killswitch := v, calls := s.calls ++ [ConfigUpdate.updateKillswitch v] }

/-- Modelled from the spec: `ConfigStore.update` for the protocol field. -/
def ConfigStore.update_default_protocol (s : ConfigStore) (v : ProtocolEnum) : ConfigStore :=
  { s with default_protocol := v, calls := s.calls ++ [ConfigUpdate.updateDefaultProtocol v] }

/-- Modelled from the spec: `ConfigStore.update` for the DNS mode together
with the custom DNS server list. -/
def ConfigStore.update_dns (s : ConfigStore) (status : UserSettingStatusEnum)
    (ips : List String) : ConfigStore :=
  { s with dns_status := status, custom_dns := ips,
           calls := s.calls ++ [ConfigUpdate.updateDns status ips] }

/-- Splits a character list at every dot, keeping empty groups: the
dot-separation of spec §4.1, written structurally so the kernel can
evaluate it on concrete candidates. -/
def splitDotAux : List Char → List Char → List (List Char)
  | [], acc => [acc.reverse]
  | c :: rest, acc =>
      if c = '.' then acc.reverse :: splitDotAux rest []
      else splitDotAux rest (c :: acc)

/-- Accumulates the decimal value of a digit group; any non-digit character
makes the group unparseable. -/
def digitsVal : List Char → Option Nat → Option Nat
  | [], acc => acc
  | c :: rest, acc =>
      match acc with
      | none => none
      | some n =>
          if c.isDigit then digitsVal rest (some (n * 10 + (c.toNat - 48)))
          else none

/-- "Parseable as an integer" of spec §4.1: a non-empty all-digit group and
its decimal value. -/
def decNat : List Char → Option Nat
  | [] => none
  | cs => digitsVal cs (some 0)

/-- Modelled from the spec: `Validator.isValidIPv4` (§4.1): true iff the
candidate is four dot-separated decimal groups, each parseable as an
integer in [0,255], no extra characters.  The source's `_is_valid_ip`
delegates this check to `user_conf_manager.is_valid_ip`, whose code is not
under `src/`. -/
def isValidIPv4 (candidate : String) : Bool :=
  let parts := splitDotAux candidate.data []
  parts.length == 4 && parts.all fun p =>
    match decNat p with
    | some n => n ≤ 255
    | none => false

/-- Modelled from the spec: the AccountTierProvider collaborator (§6), i.e.
the `user_manager` object with its property-style `tier` read. -/
structure UserManager where
  tier : ServerTierEnum
  deriving DecidableEq, Repr

/-- Outcome of `ks_manager.update_from_user_configuration_menu` (§6
KillSwitchController contract: ok | ConnectivityCheckDisableError |
GenericControllerError); the error payloads carry the exception text. -/
inductive KsControllerResult where
  | ok
  | disableConnectivityCheckError (msg : String)
  | otherError (msg : String)
  deriving DecidableEq, Repr

/-- The facade object: the three constructor-injected collaborators.  The
kill switch controller is an oracle mapping the requested mode to the
outcome of `update_from_user_configuration_menu`. -/
structure ProtonVPNUserSetting where
  user_conf_manager : ConfigStore
  user_manager : UserManager
  ks_manager : KillswitchStatusEnum → KsControllerResult

/-- The message raised by `_set_netshield` (lines 177-182). -/
def netshieldUpgradeMsg : String :=
  "\nBrowse the Internet free of malware, ads, and trackers with NetShield.\nTo use NetShield, upgrade your subscription at: https://account.protonvpn.com/dashboard"

/-- The message raised by `_set_killswitch` when the controller fails with
`DisableConnectivityCheckError` (lines 206-211). -/
def killswitchConnectivityMsg : String :=
  "\nUnable to set kill switch setting: Connectivity check could not be disabled.\nPlease disable connectivity check manually to be able to use the killswitch feature."

/-- The message raised by `_set_protocol` for a non-`ProtocolEnum` argument
(lines 236-240). -/
def invalidProtocolMsg (r : String) : String :=
  "\nSelected option \"" ++ r ++ "\" is either incorrect or protocol is (yet) not supported"

/-- The message raised by `_set_dns` for a non-`UserSettingStatusEnum`
argument (lines 292-294). -/
def invalidDnsStatusMsg (r : String) : String :=
  "Invalid setting status \"" ++ r ++ "\""

/-- The message raised by `_set_dns` for an invalid DNS server IP
(lines 300-305). -/
def invalidIpMsg (ip : String) : String :=
  "\n" ++ ip ++ " is invalid. Please provide a valid IP DNS server."

/-- `_get_netshield` (line 159): passthrough read. -/
def _get_netshield (self : ProtonVPNUserSetting) : NetshieldTranslationEnum :=
  self.user_conf_manager.netshield

/-- `_set_netshield` (lines 167-184), embedded as written: it raises the
upgrade-prompt exception when `not netshield_enum` (the falsy disable
sentinel) and the tier is FREE, and otherwise delegates to
`update_netshield`.  Errors are `Except.error` with the raised message;
the state component is the object state when the call ends. -/
def _set_netshield (self : ProtonVPNUserSetting) (netshield_enum : NetshieldTranslationEnum) :
    ProtonVPNUserSetting × Except String Unit :=
  if !netshield_enum.toBool && self.user_manager.tier == ServerTierEnum.FREE then
    (self, Except.error netshieldUpgradeMsg)
  else
    ({ self with user_conf_manager := self.user_conf_manager.update_netshield netshield_enum },
     Except.ok ())

/-- `_get_killswitch` (line 186): passthrough read. -/
def _get_killswitch (self : ProtonVPNUserSetting) : KillswitchStatusEnum :=
  self.user_conf_manager.killswitch

/-- `_set_killswitch` (lines 194-216): first calls the controller's
`update_from_user_configuration_menu`; on `DisableConnectivityCheckError`
raises the remediation message, on any other exception re-raises it
wrapped (`raise Exception(e)` keeps the text), and only in the `else`
branch (controller succeeded) updates the ConfigStore. -/
def _set_killswitch (self : ProtonVPNUserSetting) (killswitch_enum : KillswitchStatusEnum) :
    ProtonVPNUserSetting × Except String Unit :=
  match self.ks_manager killswitch_enum with
  | .disableConnectivityCheckError _ => (self, Except.error killswitchConnectivityMsg)
  | .otherError m => (self, Except.error m)
  | .ok =>
      ({ self with user_conf_manager := self.user_conf_manager.update_killswitch killswitch_enum },
       Except.ok ())

/-- `_get_protocol` (lines 218-224): passthrough read. -/
def _get_protocol (self : ProtonVPNUserSetting) : ProtocolEnum :=
  self.user_conf_manager.default_protocol

/-- The dynamically-typed `protocol_enum` argument of `_set_protocol`:
either an actual `ProtocolEnum` member (`isinstance` succeeds) or any
other Python value, carried as the string `format` interpolates. -/
inductive ProtocolArg where
  | valid (p : ProtocolEnum)
  | invalid (r : String)
  deriving DecidableEq, Repr

/-- `_set_protocol` (lines 226-248): raises for a non-`ProtocolEnum`
argument, otherwise delegates to `update_default_protocol`. -/
def _set_protocol (self : ProtonVPNUserSetting) (protocol_enum : ProtocolArg) :
    ProtonVPNUserSetting × Except String Unit :=
  match protocol_enum with
  | .invalid r => (self, Except.error (invalidProtocolMsg r))
  | .valid p =>
      ({ self with user_conf_manager := self.user_conf_manager.update_default_protocol p },
       Except.ok ())

/-- `_get_dns` (lines 250-268): reads the DNS status out of the user
configurations (the nested `[DNS][DNS_STATUS]` dictionary lookup is the
`dns_status` field of the store). -/
def _get_dns (self : ProtonVPNUserSetting) : UserSettingStatusEnum :=
  self.user_conf_manager.dns_status

/-- `_get_custom_dns_list` (lines 270-282): reads the custom DNS list out
of the user configurations (the nested `[DNS][CUSTOM_DNS]` lookup is the
`custom_dns` field of the store). -/
def _get_custom_dns_list (self : ProtonVPNUserSetting) : List String :=
  self.user_conf_manager.custom_dns

/-- The dynamically-typed `setting_status` argument of `_set_dns`: either
an actual `UserSettingStatusEnum` member or any other Python value. -/
inductive DnsStatusArg where
  | valid (s : UserSettingStatusEnum)
  | invalid (r : String)
  deriving DecidableEq, Repr

/-- The `for dns_server_ip in custom_dns_ips` loop of `_set_dns`
(lines 297-305): raises at the first entry failing `_is_valid_ip`. -/
def validateDnsIps : List String → Except String Unit
  | [] => Except.ok ()
  | ip :: rest =>
      if !isValidIPv4 ip then Except.error (invalidIpMsg ip)
      else validateDnsIps rest

/-- `_set_dns` (lines 284-310): rejects a non-enum `setting_status`; if the
list is non-empty (`if custom_dns_ips:`) validates every entry in order,
raising at the first invalid one; then delegates to
`update_dns(setting_status, custom_dns_ips)` (whose spec contract §6
returns ok here; the `except` wrapper around it re-raises unchanged). -/
def _set_dns (self : ProtonVPNUserSetting) (setting_status : DnsStatusArg)
    (custom_dns_ips : List String) : ProtonVPNUserSetting × Except String Unit :=
  match setting_status with
  | .invalid r => (self, Except.error (invalidDnsStatusMsg r))
  | .valid status =>
      match (if custom_dns_ips.isEmpty then Except.ok () else validateDnsIps custom_dns_ips) with
      | .error m => (self, Except.error m)
      | .ok _ =>
          ({ self with
             user_conf_manager := self.user_conf_manager.update_dns status custom_dns_ips },
           Except.ok ())

/-- `_is_valid_ip` (lines 323-329): delegates to the store's validator. -/
def _is_valid_ip (_self : ProtonVPNUserSetting) (ip : String) : Bool :=
  isValidIPv4 ip

/-- Python's `str.upper()` on one ASCII character, as used on the protocol
values ("tcp", "udp", "wireguard"). -/
def pyUpperChar (c : Char) : Char :=
  if 97 ≤ c.toNat ∧ c.toNat ≤ 122 then Char.ofNat (c.toNat - 32) else c

/-- Python's `str.upper()` on the ASCII protocol value strings. -/
def pyUpper (s : String) : String := ⟨s.data.map pyUpperChar⟩

/-- `__transform_user_setting_to_readable_format` (lines 109-157).  The
source receives the raw dictionary and immediately destructures it into
the five locals `raw_protocol`, `raw_ks`, `raw_dns`, `raw_custom_dns`,
`raw_ns` (lines 118-122); the embedding takes those five directly.  The
`dns_status` and `netshield_status` dictionary lookups are the matches. -/
def transform_user_setting_to_readable_format (raw_protocol : ProtocolEnum)
    (raw_ks : KillswitchStatusEnum) (raw_dns : UserSettingStatusEnum)
    (raw_custom_dns : List String) (raw_ns : NetshieldTranslationEnum) :
    List (DisplayUserSettingsEnum × SettingValue) :=
  let transformed_protocol :=
    if raw_protocol ∈ SUPPORTED_PROTOCOLS ProtocolImplementationEnum.OPENVPN then
      "OpenVPN (" ++ pyUpper raw_protocol.value ++ ")"
    else
      pyUpper raw_protocol.value
  let transformed_ks := KILLSWITCH_STATUS_TEXT raw_ks
  let transformed_dns :=
    match raw_dns with
    | .ENABLED => "Automatic"
    | .CUSTOM => "Custom: " ++ String.intercalate ", " raw_custom_dns
  let transformed_ns :=
    match raw_ns with
    | .MALWARE => "Malware"
    | .ADS_MALWARE => "Ads and malware"
    | .DISABLED => "Disabled"
  [(DisplayUserSettingsEnum.PROTOCOL, SettingValue.str transformed_protocol),
   (DisplayUserSettingsEnum.KILLSWITCH, SettingValue.str transformed_ks),
   (DisplayUserSettingsEnum.DNS, SettingValue.str transformed_dns),
   (DisplayUserSettingsEnum.NETSHIELD, SettingValue.str transformed_ns)]

/-- `_get_user_settings` (lines 83-107): assembles the five-entry raw
dictionary; if `readeable_format` is false returns it, otherwise returns
the readable projection of it. -/
def _get_user_settings (self : ProtonVPNUserSetting) (readeable_format : Bool) :
    List (DisplayUserSettingsEnum × SettingValue) :=
  let settings_dict :=
    [(DisplayUserSettingsEnum.PROTOCOL, SettingValue.protocol (_get_protocol self)),
     (DisplayUserSettingsEnum.KILLSWITCH, SettingValue.killswitch (_get_killswitch self)),
     (DisplayUserSettingsEnum.DNS, SettingValue.dnsStatus (_get_dns self)),
     (DisplayUserSettingsEnum.CUSTOM_DNS, SettingValue.customDns (_get_custom_dns_list self)),
     (DisplayUserSettingsEnum.NETSHIELD, SettingValue.netshield (_get_netshield self))]
  if !readeable_format then
    settings_dict
  else
    transform_user_setting_to_readable_format (_get_protocol self) (_get_killswitch self)
      (_get_dns self) (_get_custom_dns_list self) (_get_netshield self)

/-! Spec-side display mappings, written from the spec's words alone
(§4.2 Transformer and the §6 literal display-string contract), to be
compared with the embedded transformer. -/

/-- Spec §4.2/§6: protocols of the OpenVPN family render as
"OpenVPN (<TRANSPORT>)" with the transport upper-cased; any other protocol
renders as its own upper-cased name. -/
def specProtocolDisplay : ProtocolEnum → String
  | .UDP => "OpenVPN (UDP)"
  | .TCP => "OpenVPN (TCP)"
  | .WIREGUARD => "WIREGUARD"

/-- Spec §4.2/§6: Automatic renders as "Automatic"; Custom renders as
"Custom: " followed by the servers joined with comma-space in order. -/
def specDnsDisplay (mode : UserSettingStatusEnum) (servers : List String) : String :=
  match mode with
  | .ENABLED => "Automatic"
  | .CUSTOM => "Custom: " ++ String.intercalate ", " servers

/-- Spec §4.2/§6: BlockMalware renders as "Malware", BlockAdsAndMalware as
"Ads and malware", Disabled as "Disabled". -/
def specNetshieldDisplay : NetshieldTranslationEnum → String
  | .MALWARE => "Malware"
  | .ADS_MALWARE => "Ads and malware"
  | .DISABLED => "Disabled"

/-- Runs a sequence of `_set_dns` calls that all omit `custom_dns_ips`.
Python evaluates the default `custom_dns_ips=[]` once, at function
definition time, and every call omitting the argument receives that same
shared list object.  The body of `_set_dns` (lines 291-310) only reads the
list — the truthiness test, the `for` iteration and passing it to
`update_dns` — and contains no mutating operation on it, so the shared
object after every call is the list the call received; the second
component threads that shared default list through the call sequence. -/
def run_set_dns_omitting (self : ProtonVPNUserSetting) (dflt : List String) :
    List DnsStatusArg → ProtonVPNUserSetting × List String
  | [] => (self, dflt)
  | status :: rest => run_set_dns_omitting (_set_dns self status dflt).1 dflt rest

/-- The ConfigStore call a single argument-omitting `_set_dns` produces:
`update_dns(status, [])` when the status is a genuine enum member, none
when the call raises on an invalid status. -/
def dnsCallOf : DnsStatusArg → Option ConfigUpdate
  | .valid st => some (ConfigUpdate.updateDns st [])
  | .invalid _ => none

/-- A concrete ConfigStore state used by witnesses and counterexamples. -/
def sampleStore : ConfigStore :=
  { netshield := NetshieldTranslationEnum.DISABLED,
    killswitch := KillswitchStatusEnum.OFF,
    default_protocol := ProtocolEnum.UDP,
    dns_status := UserSettingStatusEnum.ENABLED,
    custom_dns := [],
    calls := [] }

/-- A kill switch controller whose `update_from_user_configuration_menu`
always succeeds. -/
def okController : KillswitchStatusEnum → KsControllerResult :=
  fun _ => KsControllerResult.ok

/-- A kill switch controller that always fails because the connectivity
check could not be disabled. -/
def connFailController : KillswitchStatusEnum → KsControllerResult :=
  fun _ => KsControllerResult.disableConnectivityCheckError "connectivity check still on"

/-- A facade whose account tier is Free. -/
def freeTierState : ProtonVPNUserSetting :=
  { user_conf_manager := sampleStore,
    user_manager := { tier := ServerTierEnum.FREE },
    ks_manager := okController }

/-- A paid-tier facade whose kill switch controller fails to disable the
connectivity check. -/
def connFailState : ProtonVPNUserSetting :=
  { user_conf_manager := sampleStore,
    user_manager := { tier := ServerTierEnum.PLUS },
    ks_manager := connFailController }

example : pyUpper "udp" = "UDP" := by decide
example : isValidIPv4 "1.2.3.4" = true := by decide
example : isValidIPv4 "300.1.1.1" = false := by decide
example : isValidIPv4 "0.0.0.0" = true := by decide
example : isValidIPv4 "255.255.255.255" = true := by decide
example : isValidIPv4 "256.0.0.1" = false := by decide
example : isValidIPv4 "1.2.3" = false := by decide
example : isValidIPv4 "1.2.3.4.5" = false := by decide
example : isValidIPv4 "abc.def.gha.bcd" = false := by decide

/-! Helper lemmas shared by the claim theorems. -/

/-- The validation loop raises at the first entry failing `_is_valid_ip`. -/
theorem validateDnsIps_eq_error_of_find (ips : List String) (bad : String)
    (h : ips.find? (fun ip => !isValidIPv4 ip) = some bad) :
    validateDnsIps ips = Except.error (invalidIpMsg bad) := by
  induction ips with
  | nil => simp at h
  | cons a l ih =>
      by_cases ha : isValidIPv4 a
      · rw [List.find?_cons_of_neg _ (by simp [ha])] at h
        simpa [validateDnsIps, ha] using ih h
      · rw [List.find?_cons_of_pos _ (by simp [ha])] at h
        cases h
        simp [validateDnsIps, ha]

/-- The validation loop succeeds when every entry passes `_is_valid_ip`. -/
theorem validateDnsIps_eq_ok (ips : List String)
    (h : ∀ ip ∈ ips, isValidIPv4 ip = true) :
    validateDnsIps ips = Except.ok () := by
  induction ips with
  | nil => rfl
  | cons a l ih =>
      simp only [validateDnsIps, h a (List.mem_cons_self a l), Bool.not_true,
        Bool.false_eq_true, if_false]
      exact ih fun ip hm => h ip (List.mem_cons_of_mem a hm)

/-- `_set_dns` with a genuine enum status and a list whose first failing
entry is `bad` raises naming `bad` and leaves the facade unchanged. -/
theorem set_dns_error_of_find (self : ProtonVPNUserSetting)
    (status : UserSettingStatusEnum) (ips : List String) (bad : String)
    (h : ips.find? (fun ip => !isValidIPv4 ip) = some bad) :
    _set_dns self (DnsStatusArg.valid status) ips = (self, Except.error (invalidIpMsg bad)) := by
  cases ips with
  | nil => simp at h
  | cons a l =>
      simp [_set_dns, validateDnsIps_eq_error_of_find _ _ h]

/-- `_set_dns` with a genuine enum status and an all-valid non-empty list
delegates the status and the list to `update_dns`. -/
theorem set_dns_ok_of_all_valid (self : ProtonVPNUserSetting)
    (status : UserSettingStatusEnum) (ips : List String)
    (h : ∀ ip ∈ ips, isValidIPv4 ip = true) :
    _set_dns self (DnsStatusArg.valid status) ips =
      ({ self with user_conf_manager := self.user_conf_manager.update_dns status ips },
       Except.ok ()) := by
  cases ips with
  | nil => rfl
  | cons a l =>
      simp [_set_dns, validateDnsIps_eq_ok _ h]

/-- `_set_dns` with a genuine enum status and the empty list skips the
validation loop entirely and delegates `(status, [])` to `update_dns`. -/
theorem set_dns_empty_list_eq (self : ProtonVPNUserSetting)
    (status : UserSettingStatusEnum) :
    _set_dns self (DnsStatusArg.valid status) [] =
      ({ self with user_conf_manager := self.user_conf_manager.update_dns status [] },
       Except.ok ()) := rfl

/-- A single argument-omitting `_set_dns` step appends exactly
`dnsCallOf status` to the store's call log and leaves the rest of the
facade's store fields reachable for the next step. -/
theorem set_dns_omitting_step_calls (self : ProtonVPNUserSetting) (status : DnsStatusArg) :
    (_set_dns self status []).1.user_conf_manager.calls =
      self.user_conf_manager.calls ++ (dnsCallOf status).toList := by
  cases status with
  | valid s => simp [set_dns_empty_list_eq, ConfigStore.update_dns, dnsCallOf]
  | invalid r => simp [_set_dns, dnsCallOf]

/-- The transformer agrees with the spec's display mappings pointwise. -/
theorem transform_eq_spec (p : ProtocolEnum) (ks : KillswitchStatusEnum)
    (dns : UserSettingStatusEnum) (custom : List String) (ns : NetshieldTranslationEnum) :
    transform_user_setting_to_readable_format p ks dns custom ns =
      [(DisplayUserSettingsEnum.PROTOCOL, SettingValue.str (specProtocolDisplay p)),
       (DisplayUserSettingsEnum.KILLSWITCH, SettingValue.str (KILLSWITCH_STATUS_TEXT ks)),
       (DisplayUserSettingsEnum.DNS, SettingValue.str (specDnsDisplay dns custom)),
       (DisplayUserSettingsEnum.NETSHIELD, SettingValue.str (specNetshieldDisplay ns))] := by
  cases p <;> cases dns <;> cases ns <;> rfl

/-! The claim theorems. -/

/-- C1: the claim says that requesting any non-disable NetShield level on a
Free-tier account raises the tier-restriction error before any call to
`update_netshield`.  The code does the opposite: its guard
`not netshield_enum` fires on the falsy disable sentinel, so the
non-disable level MALWARE requested on a Free-tier account is not rejected
at all — the call returns successfully and `update_netshield(MALWARE)` is
the one recorded persistence call. -/
theorem set_netshield_free_malware_not_rejected :
    _set_netshield freeTierState NetshieldTranslationEnum.MALWARE =
      ({ freeTierState with
         user_conf_manager :=
           freeTierState.user_conf_manager.update_netshield NetshieldTranslationEnum.MALWARE },
       Except.ok ()) ∧
    (_set_netshield freeTierState NetshieldTranslationEnum.MALWARE).1.user_conf_manager.calls =
      [ConfigUpdate.updateNetshield NetshieldTranslationEnum.MALWARE] :=
  ⟨rfl, rfl⟩

/-- C2: the claim says the disable sentinel is accepted on every tier,
including Free.  The code raises the upgrade-prompt exception precisely on
the disable sentinel when the tier is Free, before any persistence call. -/
theorem set_netshield_free_disabled_raises :
    _set_netshield freeTierState NetshieldTranslationEnum.DISABLED =
      (freeTierState, Except.error netshieldUpgradeMsg) := rfl

/-- C3: `_set_killswitch` consults the kill switch controller first and
updates the ConfigStore exactly when the controller succeeds; when the
controller fails with `DisableConnectivityCheckError` it raises the
message telling the user to disable the connectivity check manually and
the facade (including the persisted killswitch value and the call log) is
left unchanged; any other controller failure is re-raised with its own
text and also persists nothing. -/
theorem set_killswitch_controller_gates_persistence (self : ProtonVPNUserSetting)
    (killswitch_enum : KillswitchStatusEnum) :
    (self.ks_manager killswitch_enum = KsControllerResult.ok →
      _set_killswitch self killswitch_enum =
        ({ self with
           user_conf_manager := self.user_conf_manager.update_killswitch killswitch_enum },
         Except.ok ())) ∧
    (∀ m, self.ks_manager killswitch_enum = KsControllerResult.disableConnectivityCheckError m →
      _set_killswitch self killswitch_enum = (self, Except.error killswitchConnectivityMsg)) ∧
    (∀ m, self.ks_manager killswitch_enum = KsControllerResult.otherError m →
      _set_killswitch self killswitch_enum = (self, Except.error m)) := by
  refine ⟨fun h => ?_, fun m h => ?_, fun m h => ?_⟩ <;> simp [_set_killswitch, h]

/-- C3 witness: on a concrete facade whose controller cannot disable the
connectivity check, setting the kill switch raises the remediation message
and changes nothing. -/
theorem set_killswitch_controller_gates_persistence_witness :
    _set_killswitch connFailState KillswitchStatusEnum.ON =
      (connFailState, Except.error killswitchConnectivityMsg) :=
  (set_killswitch_controller_gates_persistence connFailState KillswitchStatusEnum.ON).2.1
    "connectivity check still on" rfl

/-- C4: setting a genuine protocol member and reading it back returns that
member, with `update_default_protocol` as the one recorded persistence
call; a value outside the protocol enumeration raises the
invalid-selection message and leaves the facade, and hence the call log,
unchanged. -/
theorem set_protocol_roundtrip_and_rejects_invalid (self : ProtonVPNUserSetting)
    (p : ProtocolEnum) (r : String) :
    ((_set_protocol self (ProtocolArg.valid p)).2 = Except.ok () ∧
     _get_protocol (_set_protocol self (ProtocolArg.valid p)).1 = p ∧
     (_set_protocol self (ProtocolArg.valid p)).1.user_conf_manager.calls =
       self.user_conf_manager.calls ++ [ConfigUpdate.updateDefaultProtocol p]) ∧
    _set_protocol self (ProtocolArg.invalid r) = (self, Except.error (invalidProtocolMsg r)) :=
  ⟨⟨rfl, rfl, rfl⟩, rfl⟩

/-- C5: for every recognized DNS mode, a custom server list whose first
entry failing IP validation is `bad` makes `_set_dns` raise the
invalid-IP message naming `bad`, with the facade (and so the call log)
unchanged: nothing is persisted, valid entries included. -/
theorem set_dns_invalid_ip_first_rejected_no_persist (self : ProtonVPNUserSetting)
    (status : UserSettingStatusEnum) (ips : List String) (bad : String)
    (h : ips.find? (fun ip => !isValidIPv4 ip) = some bad) :
    _set_dns self (DnsStatusArg.valid status) ips = (self, Except.error (invalidIpMsg bad)) :=
  set_dns_error_of_find self status ips bad h

/-- C5 witness: `setDns(Custom, ["1.2.3.4", "300.1.1.1"])` raises naming
"300.1.1.1" and persists nothing. -/
theorem set_dns_invalid_ip_first_rejected_no_persist_witness :
    _set_dns freeTierState (DnsStatusArg.valid UserSettingStatusEnum.CUSTOM)
        ["1.2.3.4", "300.1.1.1"] =
      (freeTierState, Except.error (invalidIpMsg "300.1.1.1")) :=
  set_dns_invalid_ip_first_rejected_no_persist freeTierState UserSettingStatusEnum.CUSTOM
    ["1.2.3.4", "300.1.1.1"] "300.1.1.1" (by decide)

/-- C6 counterexample: the claim says `setDns(Custom, [])` is rejected, but
on a concrete facade the call succeeds and `update_dns(CUSTOM, [])` is the
one recorded persistence call: the empty list skips the validation loop
and no non-emptiness check exists. -/
theorem set_dns_custom_empty_accepted_counterexample :
    _set_dns freeTierState (DnsStatusArg.valid UserSettingStatusEnum.CUSTOM) [] =
      ({ freeTierState with
         user_conf_manager :=
           freeTierState.user_conf_manager.update_dns UserSettingStatusEnum.CUSTOM [] },
       Except.ok ()) ∧
    (_set_dns freeTierState (DnsStatusArg.valid UserSettingStatusEnum.CUSTOM)
        []).1.user_conf_manager.calls =
      [ConfigUpdate.updateDns UserSettingStatusEnum.CUSTOM []] :=
  ⟨rfl, rfl⟩

/-- C6 (amended): calling `_set_dns` with the Custom DNS mode and an empty
custom server list is not rejected: the emptiness guard skips validation
and the call delegates `(CUSTOM, [])` to `update_dns`. -/
theorem set_dns_custom_empty_persists (self : ProtonVPNUserSetting) :
    _set_dns self (DnsStatusArg.valid UserSettingStatusEnum.CUSTOM) [] =
      ({ self with
         user_conf_manager :=
           self.user_conf_manager.update_dns UserSettingStatusEnum.CUSTOM [] },
       Except.ok ()) :=
  set_dns_empty_list_eq self UserSettingStatusEnum.CUSTOM

/-- C7: for every settings aggregate over the enumerations, the readable
transformation renders the protocol as "OpenVPN (<TRANSPORT>)" with the
transport upper-cased for the OpenVPN family and as the upper-cased name
otherwise, the DNS mode as "Automatic" or as "Custom: " followed by the
comma-space-joined server list in order, and the NetShield levels as
"Malware", "Ads and malware" and "Disabled". -/
theorem readable_transformation_matches_spec (p : ProtocolEnum) (ks : KillswitchStatusEnum)
    (dns : UserSettingStatusEnum) (custom : List String) (ns : NetshieldTranslationEnum) :
    transform_user_setting_to_readable_format p ks dns custom ns =
      [(DisplayUserSettingsEnum.PROTOCOL, SettingValue.str (specProtocolDisplay p)),
       (DisplayUserSettingsEnum.KILLSWITCH, SettingValue.str (KILLSWITCH_STATUS_TEXT ks)),
       (DisplayUserSettingsEnum.DNS, SettingValue.str (specDnsDisplay dns custom)),
       (DisplayUserSettingsEnum.NETSHIELD, SettingValue.str (specNetshieldDisplay ns))] :=
  transform_eq_spec p ks dns custom ns

/-- C8: in every facade state the raw settings dictionary carries exactly
the five keys protocol, killswitch, DNS mode, custom DNS list and
NetShield, while the readable dictionary carries exactly four keys — the
custom DNS list has no key of its own and is instead folded into the DNS
display string. -/
theorem get_settings_raw_five_keys_readable_four (self : ProtonVPNUserSetting) :
    (_get_user_settings self false).map Prod.fst =
      [DisplayUserSettingsEnum.PROTOCOL, DisplayUserSettingsEnum.KILLSWITCH,
       DisplayUserSettingsEnum.DNS, DisplayUserSettingsEnum.CUSTOM_DNS,
       DisplayUserSettingsEnum.NETSHIELD] ∧
    (_get_user_settings self true).map Prod.fst =
      [DisplayUserSettingsEnum.PROTOCOL, DisplayUserSettingsEnum.KILLSWITCH,
       DisplayUserSettingsEnum.DNS, DisplayUserSettingsEnum.NETSHIELD] ∧
    DisplayUserSettingsEnum.CUSTOM_DNS ∉ (_get_user_settings self true).map Prod.fst ∧
    (_get_user_settings self true).lookup DisplayUserSettingsEnum.DNS =
      some (SettingValue.str (specDnsDisplay (_get_dns self) (_get_custom_dns_list self))) := by
  refine ⟨rfl, rfl, ?_, ?_⟩
  · show DisplayUserSettingsEnum.CUSTOM_DNS ∉
      [DisplayUserSettingsEnum.PROTOCOL, DisplayUserSettingsEnum.KILLSWITCH,
       DisplayUserSettingsEnum.DNS, DisplayUserSettingsEnum.NETSHIELD]
    decide
  show (transform_user_setting_to_readable_format (_get_protocol self) (_get_killswitch self)
      (_get_dns self) (_get_custom_dns_list self) (_get_netshield self)).lookup
      DisplayUserSettingsEnum.DNS = _
  rw [transform_eq_spec]
  rfl

/-- C8 witness: on a concrete facade the readable dictionary has no
custom-DNS key. -/
theorem get_settings_raw_five_keys_readable_four_witness :
    DisplayUserSettingsEnum.CUSTOM_DNS ∉ (_get_user_settings freeTierState true).map Prod.fst :=
  (get_settings_raw_five_keys_readable_four freeTierState).2.2.1

/-- C9: `_set_dns` validates every entry of a non-empty custom server list
even when the requested mode is Automatic (ENABLED): a list whose first
failing entry is `bad` makes the call raise naming `bad` with nothing
persisted, and a non-empty all-valid list is delegated to `update_dns`
together with the Automatic mode. -/
theorem set_dns_validates_even_when_automatic (self : ProtonVPNUserSetting)
    (ips : List String) :
    (∀ bad, ips.find? (fun ip => !isValidIPv4 ip) = some bad →
      _set_dns self (DnsStatusArg.valid UserSettingStatusEnum.ENABLED) ips =
        (self, Except.error (invalidIpMsg bad))) ∧
    (ips ≠ [] → (∀ ip ∈ ips, isValidIPv4 ip = true) →
      _set_dns self (DnsStatusArg.valid UserSettingStatusEnum.ENABLED) ips =
        ({ self with
           user_conf_manager :=
             self.user_conf_manager.update_dns UserSettingStatusEnum.ENABLED ips },
         Except.ok ())) :=
  ⟨fun bad h => set_dns_error_of_find self UserSettingStatusEnum.ENABLED ips bad h,
   fun _ hv => set_dns_ok_of_all_valid self UserSettingStatusEnum.ENABLED ips hv⟩

/-- C9 witness: with the Automatic mode, the invalid list ["300.1.1.1"]
is rejected and the valid list ["9.9.9.9"] is persisted together with the
Automatic mode. -/
theorem set_dns_validates_even_when_automatic_witness :
    (_set_dns freeTierState (DnsStatusArg.valid UserSettingStatusEnum.ENABLED) ["300.1.1.1"] =
      (freeTierState, Except.error (invalidIpMsg "300.1.1.1"))) ∧
    (_set_dns freeTierState (DnsStatusArg.valid UserSettingStatusEnum.ENABLED) ["9.9.9.9"] =
      ({ freeTierState with
         user_conf_manager :=
           freeTierState.user_conf_manager.update_dns UserSettingStatusEnum.ENABLED
             ["9.9.9.9"] },
       Except.ok ())) :=
  ⟨(set_dns_validates_even_when_automatic freeTierState ["300.1.1.1"]).1 "300.1.1.1" (by decide),
   (set_dns_validates_even_when_automatic freeTierState ["9.9.9.9"]).2 (by decide) (by decide)⟩

/-- C10: across any sequence of `_set_dns` calls that omit the
custom-server argument, the shared mutable default list stays empty — the
body never mutates the list it is given — so every successful call in the
sequence passes the empty list to `update_dns` and no state accumulates
through the default argument. -/
theorem set_dns_default_list_never_accumulates (self : ProtonVPNUserSetting)
    (statuses : List DnsStatusArg) :
    (run_set_dns_omitting self [] statuses).2 = [] ∧
    (run_set_dns_omitting self [] statuses).1.user_conf_manager.calls =
      self.user_conf_manager.calls ++ statuses.filterMap dnsCallOf := by
  induction statuses generalizing self with
  | nil => exact ⟨rfl, (List.append_nil _).symm⟩
  | cons st rest ih =>
      refine ⟨(ih _).1, ?_⟩
      rw [run_set_dns_omitting, (ih _).2, set_dns_omitting_step_calls]
      cases st <;> simp [dnsCallOf]

end ProtonVPN
